import Mathlib

/-!
Shallow embedding of the `alphahub` client (files `src/alphahub/_fsm.py` and
`src/alphahub/_connection.py`).

The program is a cooperative finite-state machine: `SimpleFSM.start` repeatedly
looks up a handler method named after the current state, runs it, and converts
an uncaught `ExceptionState` into a direct state jump and any other uncaught
exception into a transition to `ERROR`.  `Connection` builds the protocol on
top: HTTP authentication, WebSocket connection, channel subscription,
receive/dispatch, heartbeat and reconnection.

Modelling choices:
* timestamps (`datetime.now()`, `datetime.min`, `timedelta`) are integers in
  seconds; each handler receives the relevant `now` values explicitly;
* I/O results (HTTP authentication outcome, WebSocket connect/send success,
  received frames) are supplied by an explicit oracle; a receive is either a
  timeout, a transport-closed condition, or a decoded frame;
* the Python `dict` `self.subscribed` is an insertion-ordered association
  list, with assignment appending a key that is not yet present (exactly the
  Python `d[k] = v` behaviour);
* algorithm ids are naturals (the spec calls them positive integers) and the
  Python `int(...)` parse of the topic remainder is `String.toNat?`, with a
  parse failure raising a generic exception just as `int` raises `ValueError`;
* logging and sleeping are effect-free and are not modelled; messages passed
  to `ws.send` and payloads handed to dispatch tasks are collected as outputs.
-/

namespace AlphaHub

/-- `DEFAULT_ERROR_WAIT_TIME` from `_fsm.py` (seconds). -/
def DEFAULT_ERROR_WAIT_TIME : Int := 5

/-- `OAUTH_TIMEOUT = timedelta(minutes=29)` from `_connection.py`, in seconds. -/
def OAUTH_TIMEOUT : Int := 29 * 60

/-- `HEARTBEAT_INTERVAL = timedelta(seconds=15)` from `_connection.py`. -/
def HEARTBEAT_INTERVAL : Int := 15

/-- `SUBSCRIPTION_TIMEOUT = timedelta(seconds=15)` from `_connection.py`. -/
def SUBSCRIPTION_TIMEOUT : Int := 15

/-- `RECEIVE_TIMEOUT_SECONDS = 5` from `_connection.py`. -/
def RECEIVE_TIMEOUT_SECONDS : Int := 5

/-- `datetime.min` as a seconds timestamp (far in the past; year 1). -/
def datetime_min : Int := -62135596800

/-- The state tags that appear in the program (`self.state` is a string in the
source; the strings that occur are exactly these, plus the spec's `DONE`). -/
inductive ConnState where
  | INIT
  | AUTHENTICATED
  | CONNECTED
  | SUBSCRIBING
  | RECEIVING
  | STALE
  | RECONNECTING
  | ERROR
  | DONE
deriving DecidableEq, Repr

/-- Exceptions as the engine distinguishes them: `ExceptionState(target)` is
caught specially by `SimpleFSM.start`; everything else is a generic uncaught
exception carrying only a description. -/
inductive Exn where
  | exceptionState (target : ConnState)
  | other (msg : String)
deriving DecidableEq, Repr

/-- The payload of a decoded frame.  `status` is the value of
`payload["status"]` when that key is present (read only for `phx_reply`
frames; a missing key raises `KeyError` in the source).  `raw` stands for the
rest of the payload, opaque to the protocol and forwarded to the dispatcher. -/
structure Payload where
  status : Option String
  raw : String
deriving DecidableEq, Repr

/-- Outcome of one `await wait_for(self.ws.recv(), 5)` in `Connection._recv`:
a timeout (`asyncio.TimeoutError`), a transport-closed condition
(`websockets.exceptions.ConnectionClosedError`), or a decoded 5-tuple frame
(of which `_recv` uses the `channel`, `method` and `info` components). -/
inductive RecvEvent where
  | timeout
  | closed
  | frame (channel : String) (method : String) (payload : Payload)
deriving DecidableEq, Repr

/-- The mutable state of one `Connection` object, including the fields
inherited from `SimpleFSM` (`state`, `last_exception`, `running`). -/
structure Conn where
  email : String
  password : String
  algo_ids : List Nat
  token : Option String
  renew_token : Option String
  expiry : Int
  ws : Bool
  stale_time : Int
  subscribed : List (Nat × Bool)
  subscription_deadline : Int
  state : ConnState
  last_exception : Option Exn
  running : Bool
deriving DecidableEq, Repr

/-- Key list of a Python dict modelled as an association list. -/
def dictKeys (d : List (Nat × Bool)) : List Nat := d.map Prod.fst

/-- Python `d[k] = v`: update in place if the key is present, otherwise append
the new key at the end (Python dicts preserve insertion order). -/
def dictSet (d : List (Nat × Bool)) (k : Nat) (v : Bool) : List (Nat × Bool) :=
  if (dictKeys d).contains k then
    d.map (fun p => if p.1 = k then (k, v) else p)
  else d ++ [(k, v)]

/-- Python `d[k]` with a default.  In `state_SUBSCRIBING` the looked-up key is
always one of the dict's own keys, so the default is never observed there. -/
def dictGetD (d : List (Nat × Bool)) (k : Nat) (dflt : Bool) : Bool :=
  match d.find? (fun p => p.1 == k) with
  | some p => p.2
  | none => dflt

/-- `all(self.subscribed.values())`. -/
def allSubscribed (d : List (Nat × Bool)) : Bool :=
  (d.map Prod.snd).all (fun b => b)

/-- The snapshot `[id for id,subscribed in self.subscribed.items() if not
subscribed]` taken at the head of the `for` loop in `state_SUBSCRIBING`. -/
def unsubscribedIds (d : List (Nat × Bool)) : List Nat :=
  (d.filter (fun p => !p.2)).map Prod.fst

/-- The channel-join request string built in `state_SUBSCRIBING`. -/
def joinMsg (id : Nat) : String :=
  "[null,null,\"algorithms:" ++ toString id ++ "\",\"phx_join\",\x7b\x7d]"

/-- The heartbeat message sent by `state_STALE`. -/
def heartbeatMsg : String := "[null,null,\"phoenix\",\"heartbeat\",\x7b\x7d]"

/-- `Connection._close_ws`: drop the transport (the asynchronous
`ws.close()` task has no further observable effect on the session state). -/
def closeWs (c : Conn) : Conn := { c with ws := false }

/-- Python `s.startswith(pre)`, computed structurally on the char list so
that concrete instances evaluate. -/
def strStartsWith (s pre : String) : Bool := pre.data.isPrefixOf s.data

/-- Python slicing `s[n:]`, computed structurally on the char list. -/
def strDrop (s : String) (n : Nat) : String := { data := s.data.drop n }

/-- The numeric value of a decimal digit character, if it is one. -/
def charDigit? (ch : Char) : Option Nat :=
  if '0' ≤ ch ∧ ch ≤ '9' then some (ch.toNat - '0'.toNat) else none

/-- Accumulating decimal parse of a char list; any non-digit fails. -/
def parseNatAux : List Char → Nat → Option Nat
  | [], acc => some acc
  | ch :: rest, acc =>
    match charDigit? ch with
    | none => none
    | some d => parseNatAux rest (acc * 10 + d)

/-- Python `int(s)` restricted to non-negative decimal numerals: digits parse
to the numeral's value, the empty string and any non-digit fail the way
`int` raises `ValueError`.  (Python also strips whitespace and accepts a
sign; the protocol's topics only ever carry plain digit ids.) -/
def strToNat? (s : String) : Option Nat :=
  match s.data with
  | [] => none
  | l => parseNatAux l 0

/-- Result of `Connection._recv`: either a normal return, carrying the updated
connection and the dispatch tasks created (at most one `(algo_id, payload)`
pair per call), or an uncaught exception. -/
inductive RecvOut where
  | ret (c : Conn) (disp : List (Nat × Payload))
  | exn (e : Exn) (c : Conn)
deriving DecidableEq, Repr

/-- The connection carried by a `RecvOut`. -/
def RecvOut.conn : RecvOut → Conn
  | .ret c _ => c
  | .exn _ c => c

/-- Embedding of `Connection._recv` (lines 162-202 of `_connection.py`):
timeout returns quietly; a closed transport raises
`ExceptionState('RECONNECTING')`; a decoded frame is routed by channel and
method, marking subscriptions, creating dispatch tasks for `new_signals`,
and raising `ExceptionState('ERROR')` on a bad reply status. -/
def recvStep (c : Conn) (ev : RecvEvent) : RecvOut :=
  match ev with
  | .timeout => .ret c []
  | .closed => .exn (.exceptionState .RECONNECTING) c
  | .frame channel method payload =>
    if strStartsWith channel "algorithms:" then
      match strToNat? (strDrop channel "algorithms:".length) with
      | none => .exn (.other "ValueError: invalid algorithm id") c
      | some algo_id =>
        if method == "phx_reply" then
          match payload.status with
          | none => .exn (.other "KeyError: status") c
          | some s =>
            if s == "ok" then
              .ret { c with subscribed := dictSet c.subscribed algo_id true } []
            else
              .exn (.exceptionState .ERROR) c
        else if method == "new_signals" then
          .ret c [(algo_id, payload)]
        else if method == "phx_close" then
          .ret c []
        else
          .ret c []
    else if channel = "phoenix" then
      if method == "phx_reply" then
        match payload.status with
        | none => .exn (.other "KeyError: status") c
        | some s =>
          if s == "ok" then .ret c [] else .exn (.exceptionState .ERROR) c
      else
        .ret c []
    else
      .ret c []

/-- Result of `Connection._send`: the websocket write either succeeds or
raises; in both cases the connection has already been updated. -/
inductive SendOut where
  | ok (c : Conn)
  | exn (e : Exn) (c : Conn)
deriving DecidableEq, Repr

/-- Embedding of `Connection._send` (lines 157-160): `stale_time` is assigned
`now + HEARTBEAT_INTERVAL` first, and only then is the transport write
attempted (`writeOk` says whether `await self.ws.send(msg)` succeeds). -/
def sendStep (c : Conn) (now : Int) (writeOk : Bool) : SendOut :=
  let c1 : Conn := { c with stale_time := now + HEARTBEAT_INTERVAL }
  if writeOk then .ok c1 else .exn (.other "websocket send failed") c1

/-- Uniform result of running one state handler: a normal return, an uncaught
exception, or `stuck` when the supplied oracle does not cover enough I/O
results to finish the handler (the real handler would still be awaiting I/O).
`sent` collects the messages passed to `ws.send`; `disp` collects the
`(algo_id, payload)` dispatch tasks created. -/
inductive HOut where
  | ret (c : Conn) (sent : List String) (disp : List (Nat × Payload))
  | exn (e : Exn) (c : Conn) (sent : List String) (disp : List (Nat × Payload))
  | stuck
deriving DecidableEq, Repr

/-- Embedding of `Connection.state_INIT` (lines 92-104): close any existing
transport, POST the credentials; on success store `token` and `renew_token`,
set `expiry = now + OAUTH_TIMEOUT` and move to AUTHENTICATED.  `auth` is the
oracle for the HTTP call: `none` stands for any failure of the request, of
JSON decoding or of the `data`/`token`/`renew_token` lookups, all of which
surface as a generic uncaught exception. -/
def state_INIT (c : Conn) (now : Int) (auth : Option (String × String)) : HOut :=
  let c1 := closeWs c
  match auth with
  | none => .exn (.other "authentication failed") c1 [] []
  | some td =>
    .ret { c1 with token := some td.1, renew_token := some td.2,
                   expiry := now + OAUTH_TIMEOUT, state := .AUTHENTICATED } [] []

/-- Embedding of `Connection.state_AUTHENTICATED` (lines 106-110): open the
websocket with the token in the URI; on success move to CONNECTED, a failed
connect is a generic uncaught exception. -/
def state_AUTHENTICATED (c : Conn) (connectOk : Bool) : HOut :=
  if connectOk then .ret { c with ws := true, state := .CONNECTED } [] []
  else .exn (.other "websocket connect failed") c [] []

/-- Embedding of `Connection.state_CONNECTED` (lines 112-115): reset the
subscription dict to all-false over the current algo ids, set the
subscription deadline, and move to SUBSCRIBING. -/
def state_CONNECTED (c : Conn) (now : Int) : HOut :=
  .ret { c with subscribed := c.algo_ids.foldl (fun d i => dictSet d i false) [],
                subscription_deadline := now + SUBSCRIPTION_TIMEOUT,
                state := .SUBSCRIBING } [] []

/-- Result of a piece of the `state_SUBSCRIBING` loop: `done` means the
handler returned (early return on a state change, or the final
`state = RECEIVING` set by the outer loop); `cont` means this piece finished
and the loop continues with the remaining receive events and send results;
`exn` propagates an uncaught exception; `stuck` means the oracle ran out. -/
inductive SubRes where
  | done (c : Conn) (sent : List String) (disp : List (Nat × Payload))
  | cont (c : Conn) (sent : List String) (disp : List (Nat × Payload))
      (evs : List RecvEvent) (oks : List Bool)
  | exn (e : Exn) (c : Conn) (sent : List String) (disp : List (Nat × Payload))
  | stuck
deriving DecidableEq, Repr

/-- The inner `while True` loop of `state_SUBSCRIBING` (lines 123-128):
receive until the given id's flag is set, returning early if the state ever
leaves SUBSCRIBING (dead in practice, since `_recv` never assigns `state`).
`oks` is the unconsumed send oracle, passed through untouched. -/
def subInner (c : Conn) (id : Nat) (oks : List Bool) : List RecvEvent → SubRes
  | [] => .stuck
  | ev :: evs =>
    match recvStep c ev with
    | .exn e c1 => .exn e c1 [] []
    | .ret c1 disp =>
      if c1.state ≠ ConnState.SUBSCRIBING then .done c1 [] disp
      else if dictGetD c1.subscribed id false then .cont c1 [] disp evs oks
      else
        match subInner c1 id oks evs with
        | .done c2 s d => .done c2 s (disp ++ d)
        | .cont c2 s d evs2 oks2 => .cont c2 s (disp ++ d) evs2 oks2
        | .exn e c2 s d => .exn e c2 s (disp ++ d)
        | .stuck => .stuck

/-- The `for id in [...]` loop of `state_SUBSCRIBING` (lines 119-128): for
each id of the snapshot, send a join request and run the inner receive loop.
Each send consumes one entry of the send oracle (`true` when absent). -/
def subFor (c : Conn) (now : Int) :
    List Nat → List RecvEvent → List Bool → SubRes
  | [], evs, oks => .cont c [] [] evs oks
  | id :: ids, evs, oks =>
    match sendStep c now (oks.headD true) with
    | .exn e c1 => .exn e c1 [joinMsg id] []
    | .ok c1 =>
      match subInner c1 id oks.tail evs with
      | .done c2 s d => .done c2 (joinMsg id :: s) d
      | .exn e c2 s d => .exn e c2 (joinMsg id :: s) d
      | .stuck => .stuck
      | .cont c2 s d evs2 oks2 =>
        match subFor c2 now ids evs2 oks2 with
        | .done c3 s3 d3 => .done c3 (joinMsg id :: (s ++ s3)) (d ++ d3)
        | .cont c3 s3 d3 evs3 oks3 =>
          .cont c3 (joinMsg id :: (s ++ s3)) (d ++ d3) evs3 oks3
        | .exn e c3 s3 d3 => .exn e c3 (joinMsg id :: (s ++ s3)) (d ++ d3)
        | .stuck => .stuck

/-- The outer `while not all(self.subscribed.values())` loop of
`state_SUBSCRIBING` (lines 118-130), with explicit fuel; when every flag is
true the handler sets `state = RECEIVING` and returns.  Each outer iteration
with an unsubscribed id consumes at least one receive event, so fuel one more
than the number of supplied events is always sufficient. -/
def subOuter : Nat → Conn → Int → List RecvEvent → List Bool → SubRes
  | 0, _, _, _, _ => .stuck
  | fuel + 1, c, now, evs, oks =>
    if allSubscribed c.subscribed then .done { c with state := .RECEIVING } [] []
    else
      match subFor c now (unsubscribedIds c.subscribed) evs oks with
      | .done c1 s d => .done c1 s d
      | .exn e c1 s d => .exn e c1 s d
      | .stuck => .stuck
      | .cont c1 s d evs1 oks1 =>
        match subOuter fuel c1 now evs1 oks1 with
        | .done c2 s2 d2 => .done c2 (s ++ s2) (d ++ d2)
        | .cont c2 s2 d2 evs2 oks2 => .cont c2 (s ++ s2) (d ++ d2) evs2 oks2
        | .exn e c2 s2 d2 => .exn e c2 (s ++ s2) (d ++ d2)
        | .stuck => .stuck

/-- Embedding of `Connection.state_SUBSCRIBING` (lines 117-130), driven by a
list of receive events and a list of send-success flags. -/
def state_SUBSCRIBING (c : Conn) (now : Int)
    (evs : List RecvEvent) (oks : List Bool) : HOut :=
  match subOuter (evs.length + 1) c now evs oks with
  | .done c1 s d => .ret c1 s d
  | .cont _ _ _ _ _ => .stuck
  | .exn e c1 s d => .exn e c1 s d
  | .stuck => .stuck

/-- Embedding of `Connection.state_RECEIVING` (lines 132-137): one receive,
then move to STALE when `now >= stale_time`, otherwise stay in RECEIVING. -/
def state_RECEIVING (c : Conn) (ev : RecvEvent) (now : Int) : HOut :=
  match recvStep c ev with
  | .exn e c1 => .exn e c1 [] []
  | .ret c1 disp =>
    if now ≥ c1.stale_time then .ret { c1 with state := .STALE } [] disp
    else .ret c1 [] disp

/-- Embedding of `Connection.state_STALE` (lines 139-142): send the heartbeat
(which advances `stale_time`), then return to RECEIVING. -/
def state_STALE (c : Conn) (now : Int) (writeOk : Bool) : HOut :=
  match sendStep c now writeOk with
  | .ok c1 => .ret { c1 with state := .RECEIVING } [heartbeatMsg] []
  | .exn e c1 => .exn e c1 [heartbeatMsg] []

/-- Embedding of `Connection.state_RECONNECTING` (lines 144-151): close the
transport; reuse the token (go to AUTHENTICATED) while `now < expiry`,
otherwise re-authenticate from INIT. -/
def state_RECONNECTING (c : Conn) (now : Int) : HOut :=
  let c1 := closeWs c
  if now < c1.expiry then .ret { c1 with state := .AUTHENTICATED } [] []
  else .ret { c1 with state := .INIT } [] []

/-- Embedding of `Connection.state_ERROR` (lines 153-155): the inherited
recovery (log the captured failure, sleep `DEFAULT_ERROR_WAIT_TIME`, set
`state = INIT`) followed by the protocol cleanup `_close_ws()`. -/
def state_ERROR (c : Conn) : HOut :=
  .ret (closeWs { c with state := .INIT }) [] []

/-- Which state tags have a registered handler on a `Connection` object: the
class defines `state_INIT`, `state_AUTHENTICATED`, `state_CONNECTED`,
`state_SUBSCRIBING`, `state_RECEIVING`, `state_STALE`, `state_RECONNECTING`
and `state_ERROR`; no `state_DONE` method exists anywhere. -/
def hasHandler : ConnState → Bool
  | .DONE => false
  | _ => true

/-- The per-step I/O oracle: the clock value, the HTTP authentication result,
whether a websocket connect succeeds, the receive events available, and the
success flags of the websocket writes. -/
structure Oracle where
  now : Int
  auth : Option (String × String)
  connectOk : Bool
  events : List RecvEvent
  sendOks : List Bool
deriving DecidableEq, Repr

/-- Dispatch to the handler registered for the current state (the
`getattr(self, f'state_...')` lookup succeeding). -/
def runHandler (c : Conn) (o : Oracle) : HOut :=
  match c.state with
  | .INIT => state_INIT c o.now o.auth
  | .AUTHENTICATED => state_AUTHENTICATED c o.connectOk
  | .CONNECTED => state_CONNECTED c o.now
  | .SUBSCRIBING => state_SUBSCRIBING c o.now o.events o.sendOks
  | .RECEIVING =>
    match o.events with
    | [] => .stuck
    | ev :: _ => state_RECEIVING c ev o.now
  | .STALE => state_STALE c o.now (o.sendOks.headD true)
  | .RECONNECTING => state_RECONNECTING c o.now
  | .ERROR => state_ERROR c
  | .DONE => .stuck

/-- Observable outcome of one engine loop iteration. -/
structure StepOut where
  conn : Conn
  sent : List String
  dispatched : List (Nat × Payload)
deriving DecidableEq, Repr

/-- One iteration of the loop body of `SimpleFSM.start` (lines 38-54 of
`_fsm.py`) as run on a `Connection`: look up the handler for the current
state — no handler is fatal (`fatal` logs and calls `stop()`, so `running`
becomes false and no handler runs) — otherwise execute it; a normal return
clears `last_exception`; an uncaught `ExceptionState` clears
`last_exception` and jumps to its target; any other uncaught exception is
recorded in `last_exception` and the state becomes ERROR.  `none` means the
oracle did not supply enough I/O results to finish the handler. -/
def connStep (c : Conn) (o : Oracle) : Option StepOut :=
  if hasHandler c.state then
    match runHandler c o with
    | .ret c1 s d => some ⟨{ c1 with last_exception := none }, s, d⟩
    | .exn (.exceptionState t) c1 s d =>
      some ⟨{ c1 with last_exception := none, state := t }, s, d⟩
    | .exn (.other m) c1 s d =>
      some ⟨{ c1 with last_exception := some (.other m), state := .ERROR }, s, d⟩
    | .stuck => none
  else
    some ⟨{ c with running := false }, [], []⟩

/-- Several engine iterations, accumulating the observable outputs. -/
def runSteps (c : Conn) : List Oracle → Option StepOut
  | [] => some ⟨c, [], []⟩
  | o :: os =>
    match connStep c o with
    | none => none
    | some s =>
      match runSteps s.conn os with
      | none => none
      | some r => some ⟨r.conn, s.sent ++ r.sent, s.dispatched ++ r.dispatched⟩

/-- Reachability along engine iterations: `Reaches a b` holds when the loop
body, run while `running` is still true, can take the session from `a` to
`b` under some sequence of I/O results. -/
inductive Reaches : Conn → Conn → Prop where
  | refl (c : Conn) : Reaches c c
  | step (c c1 : Conn) (o : Oracle) (s : StepOut) :
      Reaches c c1 → c1.running = true → connStep c1 o = some s →
      Reaches c s.conn

/-- Embedding of `Connection.__init__` (lines 24-70): validate that email,
password and the algorithm-id list are non-empty (each failure raises
`ValueError` with the quoted message, before anything else happens) and
initialise the session fields.  The constructor performs no I/O: no field of
the result depends on any oracle, and all network access lives in the state
handlers above. -/
def mkConnection (email password : String) (algo_ids : List Nat) :
    Except String Conn :=
  if email = "" then .error "empty email"
  else if password = "" then .error "empty password"
  else if algo_ids = [] then .error "no algo_ids specified"
  else .ok
    { email := email
      password := password
      algo_ids := algo_ids
      token := none
      renew_token := none
      expiry := datetime_min
      ws := false
      stale_time := datetime_min
      subscribed := algo_ids.foldl (fun d i => dictSet d i false) []
      subscription_deadline := datetime_min
      state := .INIT
      last_exception := none
      running := false }

/-- A concrete session used by witnesses and counterexamples: connected,
receiving, two algorithm ids, neither yet subscribed. -/
def baseConn : Conn :=
  { email := "user@example.com"
    password := "pw"
    algo_ids := [14, 16]
    token := some "tok"
    renew_token := some "ren"
    expiry := 100
    ws := true
    stale_time := 50
    subscribed := [(14, false), (16, false)]
    subscription_deadline := 60
    state := .RECEIVING
    last_exception := none
    running := true }

/-- An oracle supplying no I/O results at all. -/
def emptyOracle : Oracle :=
  { now := 0, auth := none, connectOk := false, events := [], sendOks := [] }

/-- An ok-status reply payload. -/
def okPayload : Payload := { status := some "ok", raw := "" }

/-- An error-status reply payload. -/
def errPayload : Payload := { status := some "error", raw := "" }

/-- The session with its stored subscription deadline replaced. -/
def Conn.withDL (c : Conn) (d : Int) : Conn := { c with subscription_deadline := d }

/-- The session with its stored subscription deadline erased: two sessions
with the same scrub differ at most in that one stored value. -/
def Conn.scrub (c : Conn) : Conn := c.withDL 0

/-- `Conn.withDL` mapped over a receive result. -/
def RecvOut.withDL (d : Int) : RecvOut → RecvOut
  | .ret c disp => .ret (c.withDL d) disp
  | .exn e c => .exn e (c.withDL d)

/-- `Conn.withDL` mapped over a send result. -/
def SendOut.withDL (d : Int) : SendOut → SendOut
  | .ok c => .ok (c.withDL d)
  | .exn e c => .exn e (c.withDL d)

/-- `Conn.withDL` mapped over a subscription-loop result. -/
def SubRes.withDL (d : Int) : SubRes → SubRes
  | .done c s dp => .done (c.withDL d) s dp
  | .cont c s dp evs oks => .cont (c.withDL d) s dp evs oks
  | .exn e c s dp => .exn e (c.withDL d) s dp
  | .stuck => .stuck

/-- `Conn.withDL` mapped over a handler result. -/
def HOut.withDL (d : Int) : HOut → HOut
  | .ret c s dp => .ret (c.withDL d) s dp
  | .exn e c s dp => .exn e (c.withDL d) s dp
  | .stuck => .stuck

/-- `Conn.scrub` mapped over a step outcome: everything observable about the
step except the stored subscription deadline. -/
def StepOut.scrub (s : StepOut) : StepOut := ⟨s.conn.scrub, s.sent, s.dispatched⟩

/-- The exceptions the protocol can actually raise: a jump to RECONNECTING,
a jump to ERROR, or a generic exception. -/
@[reducible] def ExnOK (e : Exn) : Prop :=
  e = .exceptionState .RECONNECTING ∨ e = .exceptionState .ERROR ∨
    ∃ m, e = .other m

/-- State discipline of the subscription loop relative to the state `base` it
was entered in: only the final transition to RECEIVING ever changes the
state field, and raised jumps only target RECONNECTING or ERROR. -/
@[reducible] def SubResOK (base : ConnState) : SubRes → Prop
  | .done c _ _ => c.state = .RECEIVING ∨ c.state = base
  | .cont c _ _ _ _ => c.state = base
  | .exn e c _ _ => c.state = base ∧ ExnOK e
  | .stuck => True

/-- State discipline of a handler run: the returned session is never in
DONE, and raised jumps only target RECONNECTING or ERROR. -/
@[reducible] def HOutOK : HOut → Prop
  | .ret c _ _ => c.state ≠ .DONE
  | .exn e c _ _ => c.state ≠ .DONE ∧ ExnOK e
  | .stuck => True

/-- C1: for every engine step in a state with a registered handler, a handler
that raises the explicit jump signal makes the engine set the state to the
signaled target and continue the loop without engaging default error recovery
(`last_exception` stays clear, the ERROR path is not taken); a handler that
raises any other uncaught exception makes the engine record it in
`last_exception`, set the state to ERROR, and continue the loop. -/
theorem claimC1_engine_exception_discipline (c : Conn) (o : Oracle)
    (hreg : hasHandler c.state = true) :
    (∀ (t : ConnState) (c1 : Conn) (s : List String) (d : List (Nat × Payload)),
      runHandler c o = .exn (.exceptionState t) c1 s d →
      connStep c o = some ⟨{ c1 with last_exception := none, state := t }, s, d⟩) ∧
    (∀ (m : String) (c1 : Conn) (s : List String) (d : List (Nat × Payload)),
      runHandler c o = .exn (.other m) c1 s d →
      connStep c o =
        some ⟨{ c1 with last_exception := some (.other m), state := .ERROR }, s, d⟩) := by
  constructor
  · intro t c1 s d h
    simp [connStep, hreg, h]
  · intro m c1 s d h
    simp [connStep, hreg, h]

/-- Witness for C1: a transport-closed receive in RECEIVING jumps to
RECONNECTING with no recorded exception; a failed websocket connect in
AUTHENTICATED is recorded and routes to ERROR. -/
theorem claimC1_witness :
    connStep baseConn
        { now := 50, auth := none, connectOk := true,
          events := [.closed], sendOks := [] } =
      some ⟨{ baseConn with last_exception := none, state := .RECONNECTING },
        [], []⟩ ∧
    connStep { baseConn with state := .AUTHENTICATED }
        { now := 50, auth := none, connectOk := false,
          events := [], sendOks := [] } =
      some ⟨{ baseConn with
              state := .ERROR
              last_exception := some (.other "websocket connect failed") },
        [], []⟩ := by
  constructor
  · exact (claimC1_engine_exception_discipline baseConn
      { now := 50, auth := none, connectOk := true,
        events := [.closed], sendOks := [] } (by decide)).1
      .RECONNECTING baseConn [] [] rfl
  · exact (claimC1_engine_exception_discipline { baseConn with state := .AUTHENTICATED }
      { now := 50, auth := none, connectOk := false,
        events := [], sendOks := [] } (by decide)).2
      "websocket connect failed" { baseConn with state := .AUTHENTICATED } [] [] rfl

/-- C2: a transport-closed condition during a receive raises the explicit
jump to RECONNECTING (so the engine moves there directly, bypassing the
ERROR-state delay); the RECONNECTING handler closes the transport and, when
`now < expiry`, moves to AUTHENTICATED with `token`, `renew_token` and
`expiry` unchanged, otherwise moves to INIT — a token past expiry is never
reused. -/
theorem claimC2_closed_jump_reconnecting (c : Conn) (o : Oracle) (now : Int) :
    recvStep c .closed = .exn (.exceptionState .RECONNECTING) c ∧
    (c.state = .RECEIVING → o.events = [.closed] →
      connStep c o =
        some ⟨{ c with last_exception := none, state := .RECONNECTING }, [], []⟩) ∧
    (now < c.expiry →
      state_RECONNECTING c now =
        .ret { c with ws := false, state := .AUTHENTICATED } [] []) ∧
    (¬ now < c.expiry →
      state_RECONNECTING c now =
        .ret { c with ws := false, state := .INIT } [] []) := by
  refine ⟨rfl, ?_, ?_, ?_⟩
  · intro hst hev
    simp [connStep, hasHandler, hst, runHandler, hev, state_RECEIVING, recvStep]
  · intro h
    simp [state_RECONNECTING, closeWs, h]
  · intro h
    simp [state_RECONNECTING, closeWs, h]

/-- Witness for C2: on `baseConn` (expiry 100) a closed receive jumps to
RECONNECTING, reconnecting at time 50 reuses the token, and reconnecting at
time 100 falls back to full re-authentication. -/
theorem claimC2_witness :
    connStep baseConn
        { now := 50, auth := none, connectOk := true,
          events := [.closed], sendOks := [] } =
      some ⟨{ baseConn with last_exception := none, state := .RECONNECTING },
        [], []⟩ ∧
    state_RECONNECTING baseConn 50 =
      .ret { baseConn with ws := false, state := .AUTHENTICATED } [] [] ∧
    state_RECONNECTING baseConn 100 =
      .ret { baseConn with ws := false, state := .INIT } [] [] := by
  refine ⟨?_, ?_, ?_⟩
  · exact (claimC2_closed_jump_reconnecting baseConn
      { now := 50, auth := none, connectOk := true,
        events := [.closed], sendOks := [] } 0).2.1 rfl rfl
  · exact (claimC2_closed_jump_reconnecting baseConn emptyOracle 50).2.2.1 (by decide)
  · exact (claimC2_closed_jump_reconnecting baseConn emptyOracle 100).2.2.2 (by decide)

/-- C3: with algorithm ids 14 and 16 both unsubscribed, the SUBSCRIBING
handler sends exactly the two join requests, and once ok-status subscription
replies for both ids have been received — in either order, possibly
interleaved with unrelated frames — the subscription set is
`[(14, true), (16, true)]` and the state becomes RECEIVING. -/
theorem claimC3_subscribe_both_orders :
    state_SUBSCRIBING { baseConn with state := .SUBSCRIBING } 0
        [.frame "phoenix" "phx_reply" okPayload,
         .frame "algorithms:14" "phx_reply" okPayload,
         .frame "algorithms:16" "phx_reply" okPayload] [] =
      .ret { baseConn with
             state := .RECEIVING
             stale_time := 15
             subscribed := [(14, true), (16, true)] }
        [joinMsg 14, joinMsg 16] [] ∧
    state_SUBSCRIBING { baseConn with state := .SUBSCRIBING } 0
        [.frame "algorithms:16" "phx_reply" okPayload,
         .frame "algorithms:14" "phx_reply" okPayload,
         .timeout] [] =
      .ret { baseConn with
             state := .RECEIVING
             stale_time := 15
             subscribed := [(14, true), (16, true)] }
        [joinMsg 14, joinMsg 16] [] := by
  constructor
  · rfl
  · rfl

/-- C7: in RECEIVING, a receive that times out with no frame when the current
time has reached the liveness deadline moves the state to STALE without
creating any dispatch task; the STALE handler then sends the heartbeat, which
resets `stale_time` to now plus the liveness interval, and returns to
RECEIVING. -/
theorem claimC7_stale_heartbeat (c : Conn) (now now2 : Int)
    (h : now ≥ c.stale_time) :
    state_RECEIVING c .timeout now = .ret { c with state := .STALE } [] [] ∧
    state_STALE { c with state := .STALE } now2 true =
      .ret { c with
             state := .RECEIVING
             stale_time := now2 + HEARTBEAT_INTERVAL } [heartbeatMsg] [] := by
  constructor
  · simp [state_RECEIVING, recvStep, h]
  · simp [state_STALE, sendStep]

/-- Witness for C7 at `baseConn` (stale deadline 50) with the timeout
observed at time 50 and the heartbeat sent at time 51. -/
theorem claimC7_witness :
    state_RECEIVING baseConn .timeout 50 =
      .ret { baseConn with state := .STALE } [] [] ∧
    state_STALE { baseConn with state := .STALE } 51 true =
      .ret { baseConn with
             state := .RECEIVING
             stale_time := 51 + HEARTBEAT_INTERVAL } [heartbeatMsg] [] :=
  claimC7_stale_heartbeat baseConn 50 51 (by decide)

/-- C8: constructing a `Connection` with an empty email, an empty password or
an empty algorithm-id list fails immediately with the corresponding
configuration error, and with all three non-empty it succeeds with the
documented initial fields.  The construction function is pure — it takes no
I/O oracle, so no network access happens either way; all network access
lives in the state handlers. -/
theorem claimC8_construction (e p : String) (ids : List Nat) :
    mkConnection "" p ids = .error "empty email" ∧
    (e ≠ "" → mkConnection e "" ids = .error "empty password") ∧
    (e ≠ "" → p ≠ "" → mkConnection e p [] = .error "no algo_ids specified") ∧
    (e ≠ "" → p ≠ "" → ids ≠ [] →
      mkConnection e p ids = .ok
        { email := e
          password := p
          algo_ids := ids
          token := none
          renew_token := none
          expiry := datetime_min
          ws := false
          stale_time := datetime_min
          subscribed := ids.foldl (fun d i => dictSet d i false) []
          subscription_deadline := datetime_min
          state := .INIT
          last_exception := none
          running := false }) := by
  refine ⟨rfl, ?_, ?_, ?_⟩
  · intro he
    simp [mkConnection, he]
  · intro he hp
    simp [mkConnection, he, hp]
  · intro he hp hids
    simp [mkConnection, he, hp, hids]

/-- Witness for C8 at concrete arguments. -/
theorem claimC8_witness :
    mkConnection "" "pw" [14] = .error "empty email" ∧
    mkConnection "user@example.com" "" [14] = .error "empty password" ∧
    mkConnection "user@example.com" "pw" [] = .error "no algo_ids specified" ∧
    mkConnection "user@example.com" "pw" [14, 16] = .ok
      { email := "user@example.com"
        password := "pw"
        algo_ids := [14, 16]
        token := none
        renew_token := none
        expiry := datetime_min
        ws := false
        stale_time := datetime_min
        subscribed := [(14, false), (16, false)]
        subscription_deadline := datetime_min
        state := .INIT
        last_exception := none
        running := false } := by
  refine ⟨(claimC8_construction "" "pw" [14]).1, ?_, ?_, ?_⟩
  · exact (claimC8_construction "user@example.com" "" [14]).2.1 (by decide)
  · exact (claimC8_construction "user@example.com" "pw" []).2.2.1 (by decide) (by decide)
  · exact (claimC8_construction "user@example.com" "pw" [14, 16]).2.2.2
      (by decide) (by decide) (by decide)

/-- C9: a `phx_reply` on an `algorithms:<id>` channel whose status is not
"ok" raises the explicit jump to ERROR with the session unchanged, so the id
is not marked subscribed; likewise a `phx_reply` on the phoenix system
channel whose status is not "ok" raises the explicit jump to ERROR. -/
theorem claimC9_bad_reply_jumps_error (c : Conn) (ch s : String) (p : Payload)
    (id : Nat) :
    (strStartsWith ch "algorithms:" = true →
      strToNat? (strDrop ch "algorithms:".length) = some id →
      p.status = some s → s ≠ "ok" →
      recvStep c (.frame ch "phx_reply" p) = .exn (.exceptionState .ERROR) c) ∧
    (p.status = some s → s ≠ "ok" →
      recvStep c (.frame "phoenix" "phx_reply" p) =
        .exn (.exceptionState .ERROR) c) := by
  constructor
  · intro hch hid hst hs
    simp [recvStep, hch, hid, hst, hs]
  · intro hst hs
    have h1 : strStartsWith "phoenix" "algorithms:" = false := by decide
    simp [recvStep, h1, hst, hs]

/-- Witness for C9: an error-status reply on `algorithms:14` and on the
phoenix channel, both against `baseConn`. -/
theorem claimC9_witness :
    recvStep baseConn (.frame "algorithms:14" "phx_reply" errPayload) =
      .exn (.exceptionState .ERROR) baseConn ∧
    recvStep baseConn (.frame "phoenix" "phx_reply" errPayload) =
      .exn (.exceptionState .ERROR) baseConn := by
  constructor
  · exact (claimC9_bad_reply_jumps_error baseConn "algorithms:14" "error"
      errPayload 14).1 (by decide) (by decide) rfl (by decide)
  · exact (claimC9_bad_reply_jumps_error baseConn "phoenix" "error"
      errPayload 14).2 rfl (by decide)

/-- C4 counterexample: with caller-supplied ids 14 and 16, the message router
processing an ok-status subscription reply for the foreign topic
`algorithms:999` adds the key 999 to the SubscriptionSet, so after the
operation its key set is no longer equal to the caller-supplied set. -/
theorem claimC4_counterexample :
    baseConn.algo_ids = [14, 16] ∧
    dictKeys baseConn.subscribed = [14, 16] ∧
    (recvStep baseConn
        (.frame "algorithms:999" "phx_reply" okPayload)).conn.subscribed =
      [(14, false), (16, false), (999, true)] ∧
    999 ∉ baseConn.algo_ids := by decide

/-- Key set of a Python dict after an assignment: unchanged when the key is
already present, otherwise extended by the new key at the end. -/
theorem dictKeys_dictSet (d : List (Nat × Bool)) (k : Nat) (v : Bool) :
    dictKeys (dictSet d k v) =
      if (dictKeys d).contains k then dictKeys d else dictKeys d ++ [k] := by
  unfold dictSet
  split
  · simp only [dictKeys, List.map_map]
    refine List.map_congr_left ?_
    intro p _
    by_cases h : p.1 = k
    · simp [h]
    · simp [h]
  · simp [dictKeys]

/-- What a receive does to the subscription dict: either it is untouched, or
the event was an ok-status subscription reply on an `algorithms:<id>` topic
and the dict is updated at exactly that id. -/
theorem recvStep_subscribed (c : Conn) (ev : RecvEvent) :
    (recvStep c ev).conn.subscribed = c.subscribed ∨
    ∃ (ch : String) (p : Payload) (a : Nat), ev = .frame ch "phx_reply" p ∧
      p.status = some "ok" ∧ strStartsWith ch "algorithms:" = true ∧
      strToNat? (strDrop ch "algorithms:".length) = some a ∧
      (recvStep c ev).conn.subscribed = dictSet c.subscribed a true := by
  cases ev with
  | timeout => exact .inl rfl
  | closed => exact .inl rfl
  | frame ch m p =>
    by_cases hch : strStartsWith ch "algorithms:" = true
    · cases hid : strToNat? (strDrop ch "algorithms:".length) with
      | none => simp [recvStep, hch, hid, RecvOut.conn]
      | some a =>
        by_cases hm : m = "phx_reply"
        · subst hm
          cases hst : p.status with
          | none => simp [recvStep, hch, hid, hst, RecvOut.conn]
          | some s =>
            by_cases hs : s = "ok"
            · subst hs
              refine .inr ⟨ch, p, a, rfl, hst, hch, hid, ?_⟩
              simp [recvStep, hch, hid, hst, RecvOut.conn]
            · simp [recvStep, hch, hid, hst, hs, RecvOut.conn]
        · by_cases hm2 : m = "new_signals"
          · simp [recvStep, hch, hid, hm, hm2, RecvOut.conn]
          · by_cases hm3 : m = "phx_close"
            · simp [recvStep, hch, hid, hm, hm2, hm3, RecvOut.conn]
            · simp [recvStep, hch, hid, hm, hm2, hm3, RecvOut.conn]
    · have hch2 : strStartsWith ch "algorithms:" = false :=
        Bool.eq_false_iff.mpr hch
      by_cases hph : ch = "phoenix"
      · subst hph
        have hf : strStartsWith "phoenix" "algorithms:" = false := by decide
        by_cases hm : m = "phx_reply"
        · cases hst : p.status with
          | none => simp [recvStep, hf, hm, hst, RecvOut.conn]
          | some s =>
            by_cases hs : s = "ok"
            · simp [recvStep, hf, hm, hst, hs, RecvOut.conn]
            · simp [recvStep, hf, hm, hst, hs, RecvOut.conn]
        · simp [recvStep, hf, hm, RecvOut.conn]
      · simp [recvStep, hch2, hph, RecvOut.conn]

/-- C4 (amended): the message router never removes a key from the
SubscriptionSet — every key present before a receive is present after it —
but it does not keep the key set inside the caller-supplied algorithm-id
set: any key present afterwards was either present before, or the processed
event was an ok-status `phx_reply` frame on an `algorithms:<id>` topic whose
id is that key, which the router adds as a fresh key when absent. -/
theorem claimC4_router_key_evolution (c : Conn) (ev : RecvEvent) (k : Nat) :
    (k ∈ dictKeys c.subscribed →
      k ∈ dictKeys (recvStep c ev).conn.subscribed) ∧
    (k ∈ dictKeys (recvStep c ev).conn.subscribed →
      k ∈ dictKeys c.subscribed ∨
      ∃ (ch : String) (p : Payload), ev = .frame ch "phx_reply" p ∧
        p.status = some "ok" ∧ strStartsWith ch "algorithms:" = true ∧
        strToNat? (strDrop ch "algorithms:".length) = some k) := by
  rcases recvStep_subscribed c ev with h | ⟨ch, p, a, hev, hst, hch, hid, h⟩
  · rw [h]
    exact ⟨fun hk => hk, fun hk => .inl hk⟩
  · rw [h, dictKeys_dictSet]
    constructor
    · intro hk
      split
      · exact hk
      · exact List.mem_append_left _ hk
    · intro hk
      by_cases hc : (dictKeys c.subscribed).contains a = true
      · rw [if_pos hc] at hk
        exact .inl hk
      · rw [if_neg hc] at hk
        rcases List.mem_append.mp hk with h2 | h2
        · exact .inl h2
        · refine .inr ⟨ch, p, hev, hst, hch, ?_⟩
          rw [hid, List.mem_singleton.mp h2]

/-- Witness for the amended C4: key 14 survives the foreign-topic reply, and
key 999's presence afterwards is explained by the amended disjunction. -/
theorem claimC4_amended_witness :
    14 ∈ dictKeys (recvStep baseConn
        (.frame "algorithms:999" "phx_reply" okPayload)).conn.subscribed ∧
    (999 ∈ dictKeys baseConn.subscribed ∨
      ∃ (ch : String) (p : Payload),
        (RecvEvent.frame "algorithms:999" "phx_reply" okPayload) =
          .frame ch "phx_reply" p ∧
        p.status = some "ok" ∧ strStartsWith ch "algorithms:" = true ∧
        strToNat? (strDrop ch "algorithms:".length) = some 999) := by
  constructor
  · exact (claimC4_router_key_evolution baseConn
      (.frame "algorithms:999" "phx_reply" okPayload) 14).1 (by decide)
  · exact (claimC4_router_key_evolution baseConn
      (.frame "algorithms:999" "phx_reply" okPayload) 999).2 (by decide)

/-- C10: every internal send assigns `stale_time := now + 15` before the
transport write is attempted, so even when the write raises, the returned
session already carries the advanced liveness deadline. -/
theorem claimC10_send_advances_stale_time (c : Conn) (now : Int)
    (writeOk : Bool) :
    HEARTBEAT_INTERVAL = 15 ∧
    sendStep c now writeOk =
      (if writeOk then
        SendOut.ok { c with stale_time := now + HEARTBEAT_INTERVAL }
      else
        SendOut.exn (.other "websocket send failed")
          { c with stale_time := now + HEARTBEAT_INTERVAL }) :=
  ⟨rfl, rfl⟩

@[simp] theorem withDL_state (c : Conn) (d : Int) : (c.withDL d).state = c.state := rfl

@[simp] theorem withDL_subscribed (c : Conn) (d : Int) :
    (c.withDL d).subscribed = c.subscribed := rfl

@[simp] theorem withDL_stale_time (c : Conn) (d : Int) :
    (c.withDL d).stale_time = c.stale_time := rfl

@[simp] theorem withDL_expiry (c : Conn) (d : Int) :
    (c.withDL d).expiry = c.expiry := rfl

@[simp] theorem withDL_algo_ids (c : Conn) (d : Int) :
    (c.withDL d).algo_ids = c.algo_ids := rfl

theorem scrub_withDL (h : HOut) (d : Int) :
    HOut.withDL 0 (h.withDL d) = HOut.withDL 0 h := by
  cases h <;> rfl

theorem recvStep_withDL (c : Conn) (d : Int) (ev : RecvEvent) :
    recvStep (c.withDL d) ev = (recvStep c ev).withDL d := by
  cases ev with
  | timeout => rfl
  | closed => rfl
  | frame ch m p =>
    by_cases h1 : strStartsWith ch "algorithms:" = true
    · cases h2 : strToNat? (strDrop ch "algorithms:".length) with
      | none => simp [recvStep, h1, h2, RecvOut.withDL]
      | some a =>
        by_cases h3 : m = "phx_reply"
        · cases h4 : p.status with
          | none => simp [recvStep, h1, h2, h3, h4, RecvOut.withDL]
          | some s =>
            by_cases h5 : s = "ok"
            · simp [recvStep, h1, h2, h3, h4, h5, RecvOut.withDL, Conn.withDL]
            · simp [recvStep, h1, h2, h3, h4, h5, RecvOut.withDL]
        · by_cases h6 : m = "new_signals"
          · simp [recvStep, h1, h2, h3, h6, RecvOut.withDL]
          · by_cases h7 : m = "phx_close" <;>
              simp [recvStep, h1, h2, h3, h6, h7, RecvOut.withDL]
    · have h1f : strStartsWith ch "algorithms:" = false := Bool.eq_false_iff.mpr h1
      by_cases h8 : ch = "phoenix"
      · subst h8
        have hf : strStartsWith "phoenix" "algorithms:" = false := by decide
        by_cases h3 : m = "phx_reply"
        · cases h4 : p.status with
          | none => simp [recvStep, hf, h3, h4, RecvOut.withDL]
          | some s =>
            by_cases h5 : s = "ok" <;> simp [recvStep, hf, h3, h4, h5, RecvOut.withDL]
        · simp [recvStep, hf, h3, RecvOut.withDL]
      · simp [recvStep, h1f, h8, RecvOut.withDL]

theorem sendStep_withDL (c : Conn) (now : Int) (wOk : Bool) (d : Int) :
    sendStep (c.withDL d) now wOk = (sendStep c now wOk).withDL d := by
  cases wOk <;> rfl

theorem subInner_withDL (id : Nat) (oks : List Bool) (d : Int) :
    ∀ (evs : List RecvEvent) (c : Conn),
      subInner (c.withDL d) id oks evs = (subInner c id oks evs).withDL d
  | [], _ => rfl
  | ev :: evs, c => by
    have hr := recvStep_withDL c d ev
    simp only [subInner, hr]
    cases h : recvStep c ev with
    | exn e c1 => simp [RecvOut.withDL, SubRes.withDL]
    | ret c1 disp =>
      simp only [RecvOut.withDL, withDL_state, withDL_subscribed]
      by_cases h1 : c1.state ≠ ConnState.SUBSCRIBING
      · simp [h1, SubRes.withDL]
      · by_cases h2 : dictGetD c1.subscribed id false
        · simp [h1, h2, SubRes.withDL]
        · have ih := subInner_withDL id oks d evs c1
          cases hsub : subInner c1 id oks evs <;>
            simp [h1, h2, ih, hsub, SubRes.withDL]

theorem subFor_withDL (now d : Int) :
    ∀ (ids : List Nat) (evs : List RecvEvent) (oks : List Bool) (c : Conn),
      subFor (c.withDL d) now ids evs oks = (subFor c now ids evs oks).withDL d
  | [], _, _, _ => rfl
  | id :: ids, evs, oks, c => by
    have hsend := sendStep_withDL c now (oks.headD true) d
    simp only [subFor, hsend]
    cases hs : sendStep c now (oks.headD true) with
    | exn e c1 => simp [SendOut.withDL, SubRes.withDL]
    | ok c1 =>
      simp only [SendOut.withDL]
      have hinner := subInner_withDL id oks.tail d evs c1
      cases hi : subInner c1 id oks.tail evs with
      | done c2 s dp => simp [hinner, hi, SubRes.withDL]
      | exn e c2 s dp => simp [hinner, hi, SubRes.withDL]
      | stuck => simp [hinner, hi, SubRes.withDL]
      | cont c2 s dp evs2 oks2 =>
        have ih := subFor_withDL now d ids evs2 oks2 c2
        cases hf : subFor c2 now ids evs2 oks2 <;>
          simp [hinner, hi, ih, hf, SubRes.withDL]

theorem subOuter_withDL (now d : Int) :
    ∀ (fuel : Nat) (evs : List RecvEvent) (oks : List Bool) (c : Conn),
      subOuter fuel (c.withDL d) now evs oks =
        (subOuter fuel c now evs oks).withDL d
  | 0, _, _, _ => rfl
  | fuel + 1, evs, oks, c => by
    simp only [subOuter, withDL_subscribed]
    by_cases ha : allSubscribed c.subscribed = true
    · simp [ha, SubRes.withDL, Conn.withDL]
    · have hfor := subFor_withDL now d (unsubscribedIds c.subscribed) evs oks c
      cases hf : subFor c now (unsubscribedIds c.subscribed) evs oks with
      | done c1 s dp => simp [ha, hfor, hf, SubRes.withDL]
      | exn e c1 s dp => simp [ha, hfor, hf, SubRes.withDL]
      | stuck => simp [ha, hfor, hf, SubRes.withDL]
      | cont c1 s dp evs1 oks1 =>
        have ih := subOuter_withDL now d fuel evs1 oks1 c1
        cases ho : subOuter fuel c1 now evs1 oks1 <;>
          simp [ha, hfor, hf, ih, ho, SubRes.withDL]

theorem state_INIT_withDL (c : Conn) (now : Int) (auth : Option (String × String))
    (d : Int) : state_INIT (c.withDL d) now auth = (state_INIT c now auth).withDL d := by
  cases auth <;> rfl

theorem state_AUTHENTICATED_withDL (c : Conn) (connectOk : Bool) (d : Int) :
    state_AUTHENTICATED (c.withDL d) connectOk =
      (state_AUTHENTICATED c connectOk).withDL d := by
  cases connectOk <;> rfl

theorem state_CONNECTED_withDL (c : Conn) (now d : Int) :
    state_CONNECTED (c.withDL d) now = state_CONNECTED c now := rfl

theorem state_SUBSCRIBING_withDL (c : Conn) (now : Int) (evs : List RecvEvent)
    (oks : List Bool) (d : Int) :
    state_SUBSCRIBING (c.withDL d) now evs oks =
      (state_SUBSCRIBING c now evs oks).withDL d := by
  have h := subOuter_withDL now d (evs.length + 1) evs oks c
  simp only [state_SUBSCRIBING, h]
  cases ho : subOuter (evs.length + 1) c now evs oks <;>
    simp [SubRes.withDL, HOut.withDL]

theorem state_RECEIVING_withDL (c : Conn) (ev : RecvEvent) (now d : Int) :
    state_RECEIVING (c.withDL d) ev now = (state_RECEIVING c ev now).withDL d := by
  have h := recvStep_withDL c d ev
  simp only [state_RECEIVING, h]
  cases hr : recvStep c ev with
  | exn e c1 => simp [RecvOut.withDL, HOut.withDL]
  | ret c1 disp =>
    simp only [RecvOut.withDL, withDL_stale_time]
    by_cases h2 : now ≥ c1.stale_time <;>
      simp [h2, HOut.withDL, Conn.withDL]

theorem state_STALE_withDL (c : Conn) (now : Int) (wOk : Bool) (d : Int) :
    state_STALE (c.withDL d) now wOk = (state_STALE c now wOk).withDL d := by
  cases wOk <;> rfl

theorem state_RECONNECTING_withDL (c : Conn) (now d : Int) :
    state_RECONNECTING (c.withDL d) now = (state_RECONNECTING c now).withDL d := by
  by_cases h : now < c.expiry <;>
    simp [state_RECONNECTING, closeWs, Conn.withDL, h, HOut.withDL]

theorem state_ERROR_withDL (c : Conn) (d : Int) :
    state_ERROR (c.withDL d) = (state_ERROR c).withDL d := rfl

theorem runHandler_withDL (c : Conn) (o : Oracle) (d : Int)
    (h : c.state ≠ ConnState.CONNECTED) :
    runHandler (c.withDL d) o = (runHandler c o).withDL d := by
  cases hs : c.state with
  | INIT => simp only [runHandler, withDL_state, hs, state_INIT_withDL]
  | AUTHENTICATED => simp only [runHandler, withDL_state, hs, state_AUTHENTICATED_withDL]
  | CONNECTED => exact absurd hs h
  | SUBSCRIBING => simp only [runHandler, withDL_state, hs, state_SUBSCRIBING_withDL]
  | RECEIVING =>
    cases he : o.events with
    | nil => simp [runHandler, withDL_state, hs, he, HOut.withDL]
    | cons ev rest =>
      simp only [runHandler, withDL_state, hs, he, state_RECEIVING_withDL]
  | STALE => simp only [runHandler, withDL_state, hs, state_STALE_withDL]
  | RECONNECTING => simp only [runHandler, withDL_state, hs, state_RECONNECTING_withDL]
  | ERROR => simp only [runHandler, withDL_state, hs, state_ERROR_withDL]
  | DONE => simp [runHandler, withDL_state, hs, HOut.withDL]

theorem runHandler_withDL_connected (c : Conn) (o : Oracle) (d : Int)
    (h : c.state = ConnState.CONNECTED) :
    runHandler (c.withDL d) o = runHandler c o := by
  simp only [runHandler, withDL_state, h, state_CONNECTED_withDL]

theorem connStep_withDL (c : Conn) (o : Oracle) (d : Int) :
    Option.map StepOut.scrub (connStep (c.withDL d) o) =
      Option.map StepOut.scrub (connStep c o) := by
  by_cases hc : c.state = ConnState.CONNECTED
  · have h := runHandler_withDL_connected c o d hc
    simp [connStep, withDL_state, h, hc, hasHandler]
  · have h := runHandler_withDL c o d hc
    simp only [connStep, withDL_state, h]
    by_cases hh : hasHandler c.state = true
    · rw [if_pos hh, if_pos hh]
      cases hr : runHandler c o with
      | stuck => rfl
      | ret c1 s dp => rfl
      | exn e c1 s dp => cases e <;> rfl
    · rw [if_neg hh, if_neg hh]
      rfl

theorem connStep_scrub_congr (c1 c2 : Conn) (o : Oracle)
    (h : Conn.scrub c1 = Conn.scrub c2) :
    Option.map StepOut.scrub (connStep c1 o) =
      Option.map StepOut.scrub (connStep c2 o) := by
  have h2 : c2 = c1.withDL c2.subscription_deadline := by
    cases c1
    cases c2
    simp only [Conn.scrub, Conn.withDL, Conn.mk.injEq] at h ⊢
    simp_all
  rw [h2, connStep_withDL]

/-- C5: the subscription deadline stored when CONNECTED is entered is never
compared against the current time by any later operation: two sessions that
differ only in the stored subscription-deadline value take, under the same
I/O results, runs of identical length with identical transitions and
identical observable outputs (messages sent and payloads dispatched), and
end in sessions that again differ at most in that stored value. -/
theorem claimC5_deadline_noninterference (c1 c2 : Conn) (os : List Oracle)
    (h : Conn.scrub c1 = Conn.scrub c2) :
    Option.map StepOut.scrub (runSteps c1 os) =
      Option.map StepOut.scrub (runSteps c2 os) := by
  induction os generalizing c1 c2 with
  | nil => simp [runSteps, StepOut.scrub, h]
  | cons o os ih =>
    have hstep := connStep_scrub_congr c1 c2 o h
    simp only [runSteps]
    cases hs1 : connStep c1 o with
    | none =>
      cases hs2 : connStep c2 o with
      | none => simp [hs1, hs2]
      | some s2 => rw [hs1, hs2] at hstep; simp at hstep
    | some s1 =>
      cases hs2 : connStep c2 o with
      | none => rw [hs1, hs2] at hstep; simp at hstep
      | some s2 =>
        rw [hs1, hs2] at hstep
        have hso : StepOut.scrub s1 = StepOut.scrub s2 := by simpa using hstep
        have hconn : Conn.scrub s1.conn = Conn.scrub s2.conn := by
          have h3 := congrArg StepOut.conn hso
          simpa [StepOut.scrub] using h3
        have hsent : s1.sent = s2.sent := by
          have h3 := congrArg StepOut.sent hso
          simpa [StepOut.scrub] using h3
        have hdisp : s1.dispatched = s2.dispatched := by
          have h3 := congrArg StepOut.dispatched hso
          simpa [StepOut.scrub] using h3
        have ih2 := ih s1.conn s2.conn hconn
        cases hr1 : runSteps s1.conn os with
        | none =>
          cases hr2 : runSteps s2.conn os with
          | none => simp [hr1, hr2]
          | some r2 => rw [hr1, hr2] at ih2; simp at ih2
        | some r1 =>
          cases hr2 : runSteps s2.conn os with
          | none => rw [hr1, hr2] at ih2; simp at ih2
          | some r2 =>
            rw [hr1, hr2] at ih2
            have hro : StepOut.scrub r1 = StepOut.scrub r2 := by simpa using ih2
            have hrconn : Conn.scrub r1.conn = Conn.scrub r2.conn := by
              have h3 := congrArg StepOut.conn hro
              simpa [StepOut.scrub] using h3
            have hrsent : r1.sent = r2.sent := by
              have h3 := congrArg StepOut.sent hro
              simpa [StepOut.scrub] using h3
            have hrdisp : r1.dispatched = r2.dispatched := by
              have h3 := congrArg StepOut.dispatched hro
              simpa [StepOut.scrub] using h3
            simp only [hr1, hr2, Option.map, Option.some.injEq,
              StepOut.scrub, StepOut.mk.injEq]
            exact ⟨hrconn, by rw [hsent, hrsent], by rw [hdisp, hrdisp]⟩

/-- Witness for C5: two copies of the base session whose stored subscription
deadlines are 60 and 999 take the same two engine steps (a timeout receive
in RECEIVING at the deadline, then the STALE heartbeat) with the same
outputs. -/
theorem claimC5_witness :
    Conn.scrub baseConn =
      Conn.scrub { baseConn with subscription_deadline := 999 } ∧
    Option.map StepOut.scrub (runSteps baseConn
        [{ now := 50, auth := none, connectOk := true,
           events := [.timeout], sendOks := [] },
         { now := 51, auth := none, connectOk := true,
           events := [], sendOks := [true] }]) =
      Option.map StepOut.scrub (runSteps
        { baseConn with subscription_deadline := 999 }
        [{ now := 50, auth := none, connectOk := true,
           events := [.timeout], sendOks := [] },
         { now := 51, auth := none, connectOk := true,
           events := [], sendOks := [true] }]) := by
  constructor
  · rfl
  · exact claimC5_deadline_noninterference baseConn
      { baseConn with subscription_deadline := 999 } _ rfl

theorem recvStep_state_exn (c : Conn) (ev : RecvEvent) :
    (recvStep c ev).conn.state = c.state ∧
    (∀ e c1, recvStep c ev = .exn e c1 → ExnOK e) := by
  cases ev with
  | timeout => exact ⟨rfl, fun e c1 h => by cases h⟩
  | closed =>
    refine ⟨rfl, fun e c1 h => ?_⟩
    cases h
    exact .inl rfl
  | frame ch m p =>
    by_cases h1 : strStartsWith ch "algorithms:" = true
    · cases h2 : strToNat? (strDrop ch "algorithms:".length) with
      | none =>
        refine ⟨by simp [recvStep, h1, h2, RecvOut.conn], fun e c1 h => ?_⟩
        simp only [recvStep, h1, if_true, h2] at h
        cases h
        exact .inr (.inr ⟨_, rfl⟩)
      | some a =>
        by_cases h3 : m = "phx_reply"
        · cases h4 : p.status with
          | none =>
            refine ⟨by simp [recvStep, h1, h2, h3, h4, RecvOut.conn],
              fun e c1 h => ?_⟩
            simp only [recvStep, h1, if_true, h2, h3, h4, beq_self_eq_true] at h
            cases h
            exact .inr (.inr ⟨_, rfl⟩)
          | some s =>
            by_cases h5 : s = "ok"
            · refine ⟨by simp [recvStep, h1, h2, h3, h4, h5, RecvOut.conn],
                fun e c1 h => ?_⟩
              simp [recvStep, h1, h2, h3, h4, h5] at h
            · refine ⟨by simp [recvStep, h1, h2, h3, h4, h5, RecvOut.conn],
                fun e c1 h => ?_⟩
              simp only [recvStep, h1, if_true, h2, h3, h4, beq_self_eq_true] at h
              rw [if_neg (by simp [h5])] at h
              cases h
              exact .inr (.inl rfl)
        · refine ⟨?_, fun e c1 h => ?_⟩
          · by_cases h6 : m = "new_signals"
            · simp [recvStep, h1, h2, h3, h6, RecvOut.conn]
            · by_cases h7 : m = "phx_close" <;>
                simp [recvStep, h1, h2, h3, h6, h7, RecvOut.conn]
          · by_cases h6 : m = "new_signals"
            · simp [recvStep, h1, h2, h3, h6] at h
            · by_cases h7 : m = "phx_close" <;>
                simp [recvStep, h1, h2, h3, h6, h7] at h
    · have h1f : strStartsWith ch "algorithms:" = false := Bool.eq_false_iff.mpr h1
      by_cases h8 : ch = "phoenix"
      · subst h8
        have hf : strStartsWith "phoenix" "algorithms:" = false := by decide
        by_cases h3 : m = "phx_reply"
        · cases h4 : p.status with
          | none =>
            refine ⟨by simp [recvStep, hf, h3, h4, RecvOut.conn],
              fun e c1 h => ?_⟩
            simp only [recvStep, hf, Bool.false_eq_true, if_false, h3, h4,
              beq_self_eq_true, if_true] at h
            cases h
            exact .inr (.inr ⟨_, rfl⟩)
          | some s =>
            by_cases h5 : s = "ok"
            · refine ⟨by simp [recvStep, hf, h3, h4, h5, RecvOut.conn],
                fun e c1 h => ?_⟩
              simp [recvStep, hf, h3, h4, h5] at h
            · refine ⟨by simp [recvStep, hf, h3, h4, h5, RecvOut.conn],
                fun e c1 h => ?_⟩
              simp only [recvStep, hf, Bool.false_eq_true, if_false, h3, h4,
                beq_self_eq_true, if_true] at h
              rw [if_neg (by simp [h5])] at h
              cases h
              exact .inr (.inl rfl)
        · refine ⟨by simp [recvStep, hf, h3, RecvOut.conn], fun e c1 h => ?_⟩
          simp [recvStep, hf, h3] at h
      · refine ⟨by simp [recvStep, h1f, h8, RecvOut.conn], fun e c1 h => ?_⟩
        simp [recvStep, h1f, h8] at h

theorem subInner_ok (id : Nat) (oks : List Bool) :
    ∀ (evs : List RecvEvent) (c : Conn), SubResOK c.state (subInner c id oks evs)
  | [], _ => trivial
  | ev :: evs, c => by
    have hr := recvStep_state_exn c ev
    simp only [subInner]
    cases h : recvStep c ev with
    | exn e c1 =>
      dsimp only
      refine ⟨?_, hr.2 e c1 h⟩
      have h2 := hr.1
      rw [h] at h2
      exact h2
    | ret c1 disp =>
      dsimp only
      have hst : c1.state = c.state := by
        have h2 := hr.1
        rw [h] at h2
        exact h2
      split
      · exact .inr hst
      · split
        · exact hst
        · have ih := subInner_ok id oks evs c1
          rw [hst] at ih
          cases hs : subInner c1 id oks evs with
          | done c2 s dp => dsimp only; rw [hs] at ih; exact ih
          | cont c2 s dp e2 o2 => dsimp only; rw [hs] at ih; exact ih
          | exn e c2 s dp => dsimp only; rw [hs] at ih; exact ih
          | stuck => trivial

theorem sendStep_eq (c : Conn) (now : Int) (wOk : Bool) :
    sendStep c now wOk =
      (if wOk then SendOut.ok { c with stale_time := now + HEARTBEAT_INTERVAL }
       else SendOut.exn (.other "websocket send failed")
         { c with stale_time := now + HEARTBEAT_INTERVAL }) := rfl

theorem subFor_ok (now : Int) :
    ∀ (ids : List Nat) (evs : List RecvEvent) (oks : List Bool) (c : Conn),
      SubResOK c.state (subFor c now ids evs oks)
  | [], _, _, _ => rfl
  | id :: ids, evs, oks, c => by
    simp only [subFor, sendStep_eq]
    cases hw : oks.headD true with
    | false =>
      simp only [Bool.false_eq_true, if_false]
      exact ⟨rfl, .inr (.inr ⟨_, rfl⟩)⟩
    | true =>
      simp only [if_true]
      have hi := subInner_ok id oks.tail evs
        { c with stale_time := now + HEARTBEAT_INTERVAL }
      cases hs2 : subInner { c with stale_time := now + HEARTBEAT_INTERVAL }
          id oks.tail evs with
      | done c2 s dp => dsimp only; rw [hs2] at hi; exact hi
      | exn e c2 s dp => dsimp only; rw [hs2] at hi; exact hi
      | stuck => trivial
      | cont c2 s dp evs2 oks2 =>
        dsimp only
        rw [hs2] at hi
        have hc2 : c2.state = c.state := hi
        have ih := subFor_ok now ids evs2 oks2 c2
        rw [hc2] at ih
        cases hf : subFor c2 now ids evs2 oks2 with
        | done c3 s3 dp3 => dsimp only; rw [hf] at ih; exact ih
        | cont c3 s3 dp3 e3 o3 => dsimp only; rw [hf] at ih; exact ih
        | exn e c3 s3 dp3 => dsimp only; rw [hf] at ih; exact ih
        | stuck => trivial

theorem subOuter_ok (now : Int) :
    ∀ (fuel : Nat) (evs : List RecvEvent) (oks : List Bool) (c : Conn),
      SubResOK c.state (subOuter fuel c now evs oks)
  | 0, _, _, _ => trivial
  | fuel + 1, evs, oks, c => by
    simp only [subOuter]
    split
    · exact .inl rfl
    · have hf := subFor_ok now (unsubscribedIds c.subscribed) evs oks c
      cases h1 : subFor c now (unsubscribedIds c.subscribed) evs oks with
      | done c1 s dp => dsimp only; rw [h1] at hf; exact hf
      | exn e c1 s dp => dsimp only; rw [h1] at hf; exact hf
      | stuck => trivial
      | cont c1 s dp evs1 oks1 =>
        dsimp only
        rw [h1] at hf
        have hc1 : c1.state = c.state := hf
        have ih := subOuter_ok now fuel evs1 oks1 c1
        rw [hc1] at ih
        cases h2 : subOuter fuel c1 now evs1 oks1 with
        | done c2 s2 dp2 => dsimp only; rw [h2] at ih; exact ih
        | cont c2 s2 dp2 e2 o2 => dsimp only; rw [h2] at ih; exact ih
        | exn e c2 s2 dp2 => dsimp only; rw [h2] at ih; exact ih
        | stuck => trivial

theorem runHandler_ok (c : Conn) (o : Oracle)
    (h : c.state ≠ ConnState.DONE) : HOutOK (runHandler c o) := by
  cases hs : c.state with
  | INIT =>
    simp only [runHandler, hs]
    cases ha : o.auth with
    | none =>
      exact ⟨fun hd => h ((show (closeWs c).state = c.state from rfl) ▸ hd),
        .inr (.inr ⟨_, rfl⟩)⟩
    | some td => exact fun hd => ConnState.noConfusion hd
  | AUTHENTICATED =>
    simp only [runHandler, hs]
    cases hc : o.connectOk with
    | true =>
      simp only [state_AUTHENTICATED, if_true]
      exact fun hd => ConnState.noConfusion hd
    | false =>
      simp only [state_AUTHENTICATED, Bool.false_eq_true, if_false]
      exact ⟨fun hd => h (hs ▸ hd), .inr (.inr ⟨_, rfl⟩)⟩
  | CONNECTED =>
    simp only [runHandler, hs]
    exact fun hd => ConnState.noConfusion hd
  | SUBSCRIBING =>
    simp only [runHandler, hs, state_SUBSCRIBING]
    have ho := subOuter_ok o.now (o.events.length + 1) o.events o.sendOks c
    rw [hs] at ho
    cases h2 : subOuter (o.events.length + 1) c o.now o.events o.sendOks with
    | done c1 s dp =>
      dsimp only
      rw [h2] at ho
      rcases ho with h3 | h3
      · exact fun hd => ConnState.noConfusion (h3 ▸ hd)
      · exact fun hd => ConnState.noConfusion (h3 ▸ hd)
    | cont c1 s dp e1 o1 => trivial
    | exn e c1 s dp =>
      dsimp only
      rw [h2] at ho
      exact ⟨fun hd => ConnState.noConfusion (ho.1 ▸ hd), ho.2⟩
    | stuck => trivial
  | RECEIVING =>
    simp only [runHandler, hs]
    cases he : o.events with
    | nil => trivial
    | cons ev rest =>
      have hr := recvStep_state_exn c ev
      simp only [state_RECEIVING]
      cases h2 : recvStep c ev with
      | exn e c1 =>
        dsimp only
        have h3 := hr.1
        rw [h2] at h3
        exact ⟨fun hd => ConnState.noConfusion (hs ▸ h3 ▸ hd), hr.2 e c1 h2⟩
      | ret c1 disp =>
        dsimp only
        have h3 : c1.state = c.state := by
          have h4 := hr.1
          rw [h2] at h4
          exact h4
        split
        · exact fun hd => ConnState.noConfusion hd
        · exact fun hd => ConnState.noConfusion (hs ▸ h3 ▸ hd)
  | STALE =>
    simp only [runHandler, hs, state_STALE, sendStep_eq]
    cases hw : o.sendOks.headD true with
    | true =>
      simp only [if_true]
      exact fun hd => ConnState.noConfusion hd
    | false =>
      simp only [Bool.false_eq_true, if_false]
      exact ⟨fun hd => h (hs ▸ hd), .inr (.inr ⟨_, rfl⟩)⟩
  | RECONNECTING =>
    simp only [runHandler, hs, state_RECONNECTING]
    split
    · exact fun hd => ConnState.noConfusion hd
    · exact fun hd => ConnState.noConfusion hd
  | ERROR =>
    simp only [runHandler, hs]
    exact fun hd => ConnState.noConfusion hd
  | DONE => exact absurd hs h

theorem hasHandler_of_ne_done (c : Conn) (h : c.state ≠ ConnState.DONE) :
    hasHandler c.state = true := by
  cases hc : c.state with
  | DONE => exact absurd hc h
  | _ => rfl

theorem connStep_ne_done (c : Conn) (o : Oracle) (s : StepOut)
    (h : c.state ≠ ConnState.DONE) (hs : connStep c o = some s) :
    s.conn.state ≠ ConnState.DONE := by
  have hok := runHandler_ok c o h
  unfold connStep at hs
  rw [if_pos (hasHandler_of_ne_done c h)] at hs
  cases hr : runHandler c o with
  | ret c1 s1 d1 =>
    rw [hr] at hs hok
    cases hs
    exact hok
  | exn e c1 s1 d1 =>
    rw [hr] at hs hok
    cases e with
    | exceptionState t =>
      cases hs
      rcases hok.2 with h1 | h1 | ⟨m, h1⟩
      · have h2 := Exn.exceptionState.inj h1
        rw [h2]
        exact fun hd => ConnState.noConfusion hd
      · have h2 := Exn.exceptionState.inj h1
        rw [h2]
        exact fun hd => ConnState.noConfusion hd
      · exact Exn.noConfusion h1
    | other m =>
      cases hs
      exact fun hd => ConnState.noConfusion hd
  | stuck =>
    rw [hr] at hs
    exact Option.noConfusion hs

/-- C6 counterexample: no handler is registered for the DONE tag — neither
`Connection` nor `SimpleFSM` defines a `state_DONE` method — so running the
engine in state DONE cannot invoke a registered handler. -/
theorem claimC6_counterexample : hasHandler ConnState.DONE = false := rfl

/-- C6 (amended): the state DONE is not reachable from any INIT-state
session under the engine loop — no handler and no raised jump ever produces
it — and running the engine in state DONE finds no registered handler, which
is fatal: the engine logs and requests stop (`running := false`) without
invoking any handler, sending anything, or dispatching anything. -/
theorem claimC6_done_unreachable_and_fatal :
    (∀ c0 c : Conn, c0.state = ConnState.INIT → Reaches c0 c →
      c.state ≠ ConnState.DONE) ∧
    (∀ (c : Conn) (o : Oracle), c.state = ConnState.DONE →
      connStep c o = some ⟨{ c with running := false }, [], []⟩) := by
  constructor
  · intro c0 c h0 hr
    induction hr with
    | refl => rw [h0]; exact fun hd => ConnState.noConfusion hd
    | step c1 o s hr hrun hstep ih => exact connStep_ne_done c1 o s ih hstep
  · intro c o h
    simp [connStep, hasHandler, h]

/-- Witness for the amended C6: the base session in INIT is (trivially)
reached from itself and is not DONE, and an engine step on the base session
forced into DONE stops the engine with no outputs. -/
theorem claimC6_witness :
    ({ baseConn with state := ConnState.INIT } : Conn).state ≠ ConnState.DONE ∧
    connStep { baseConn with state := ConnState.DONE } emptyOracle =
      some ⟨{ baseConn with state := ConnState.DONE, running := false },
        [], []⟩ := by
  constructor
  · exact claimC6_done_unreachable_and_fatal.1 _ _ rfl (Reaches.refl _)
  · exact claimC6_done_unreachable_and_fatal.2 _ _ rfl

end AlphaHub
